import Mathlib

/-!
Verification of the transaction-orchestration layer of the
sign-in-with-solana example dapp (src/example-dapp/src/App.tsx).

The React handlers are embedded as pure trace-producing functions: each
external call (builder, signer, network) is represented by an `Event`
in the order the handler performs it, and its outcome is supplied by an
environment record.  A handler returns the ordered event trace together
with `Except.ok ()` when its promise resolves and `Except.error m` when
an uncaught error escapes it.
-/

/-- Log entry status, from TLog in src (info | success | warning | error). -/
inductive LogStatus
  | info
  | success
  | warning
  | error
deriving DecidableEq, Repr

/-- A structured log entry, from the TLog type used by createLog. -/
structure TLog where
  status : LogStatus
  method : String
  message : String
deriving DecidableEq, Repr

/-- createLog: `setLogs((logs) => [...logs, log])` — a functional update that
appends one entry at the end of the current list. -/
def createLog (logs : List TLog) (log : TLog) : List TLog :=
  logs ++ [log]

/-- The effect of a queue of functional updates applied in order, one
`createLog` per pending entry (React applies each updater atomically, in
submission order). -/
def applyAppends (logs : List TLog) (pending : List TLog) : List TLog :=
  pending.foldl createLog logs

/-- One observable step of a handler: a log append or an external call,
recorded with exactly the arguments the source passes. -/
inductive Event
  | log (entry : TLog)
  | buildLegacy
  | buildV0
  | fetchBlockhash
  | dispatchSend (tx : String)
  | dispatchSignOnly (tx : String)
  | dispatchSignAll (txs : List String)
  | dispatchSignMessage (msg : String)
  | dispatchSignIn
  | createChallenge (errVariant : Bool)
  | dispatchCreateLut (blockhash : String)
  | dispatchExtendLut (blockhash : String) (table : String)
  | dispatchV0Lut (blockhash : String) (table : String)
  | startPoll (receipt : String)
  | connectCall
  | disconnectCall
deriving DecidableEq, Repr

/-- The log entries appearing in a trace, in order. -/
def logEntries (tr : List Event) : List TLog :=
  tr.filterMap fun e =>
    match e with
    | Event.log t => some t
    | _ => none

/-- The error-status entries of a trace. -/
def errorEntries (tr : List Event) : List TLog :=
  (logEntries tr).filter fun t =>
    match t.status with
    | LogStatus.error => true
    | _ => false

/-- Whether an event is a log entry with success or error status. -/
def isFinalStatusLog (e : Event) : Bool :=
  match e with
  | Event.log t =>
    match t.status with
    | LogStatus.success => true
    | LogStatus.error => true
    | _ => false
  | _ => false

/-- Whether an event is a log entry with info status. -/
def isInfoLog (e : Event) : Bool :=
  match e with
  | Event.log t =>
    match t.status with
    | LogStatus.info => true
    | _ => false
  | _ => false

/-- The events strictly before the first event satisfying p. -/
def beforeFirst (p : Event → Bool) (tr : List Event) : List Event :=
  tr.takeWhile fun e => !p e

/-- The events strictly after the first event satisfying p. -/
def afterFirst (p : Event → Bool) (tr : List Event) : List Event :=
  (tr.dropWhile fun e => !p e).drop 1

/-- Environment for handleSignAndSendTransaction: outcome of
createTransferTransaction and of the signAndSendTransaction capability. -/
structure SendEnv where
  buildRes : Except String String
  sendRes : Except String String

/-- handleSignAndSendTransaction: guard on publicKey/wallet, build a legacy
transfer, log info, sign-and-submit, log info with the signature, start a
fire-and-forget poll; any thrown error is caught and logged as one error
entry. -/
def handleSignAndSendTransaction (publicKey : Option String) (wallet : Bool)
    (env : SendEnv) : List Event × Except String Unit :=
  match publicKey, wallet with
  | some _, true =>
    match env.buildRes with
    | Except.error e =>
      ([Event.buildLegacy,
        Event.log ⟨LogStatus.error, "signAndSendTransaction", e⟩], Except.ok ())
    | Except.ok tx =>
      match env.sendRes with
      | Except.error e =>
        ([Event.buildLegacy,
          Event.log ⟨LogStatus.info, "signAndSendTransaction",
            s!"Requesting signature for: {tx}"⟩,
          Event.dispatchSend tx,
          Event.log ⟨LogStatus.error, "signAndSendTransaction", e⟩], Except.ok ())
      | Except.ok signature =>
        ([Event.buildLegacy,
          Event.log ⟨LogStatus.info, "signAndSendTransaction",
            s!"Requesting signature for: {tx}"⟩,
          Event.dispatchSend tx,
          Event.log ⟨LogStatus.info, "signAndSendTransaction",
            s!"Signed and submitted transaction {signature}."⟩,
          Event.startPoll signature], Except.ok ())
  | _, _ => ([], Except.ok ())

/-- handleSignAndSendTransactionV0: the versioned-message variant of the
plain transfer use case. -/
def handleSignAndSendTransactionV0 (publicKey : Option String) (wallet : Bool)
    (env : SendEnv) : List Event × Except String Unit :=
  match publicKey, wallet with
  | some _, true =>
    match env.buildRes with
    | Except.error e =>
      ([Event.buildV0,
        Event.log ⟨LogStatus.error, "signAndSendTransactionV0", e⟩], Except.ok ())
    | Except.ok tx =>
      match env.sendRes with
      | Except.error e =>
        ([Event.buildV0,
          Event.log ⟨LogStatus.info, "signAndSendTransactionV0",
            s!"Requesting signature for: {tx}"⟩,
          Event.dispatchSend tx,
          Event.log ⟨LogStatus.error, "signAndSendTransactionV0", e⟩], Except.ok ())
      | Except.ok signature =>
        ([Event.buildV0,
          Event.log ⟨LogStatus.info, "signAndSendTransactionV0",
            s!"Requesting signature for: {tx}"⟩,
          Event.dispatchSend tx,
          Event.log ⟨LogStatus.info, "signAndSendTransactionV0",
            s!"Signed and submitted transactionV0 {signature}."⟩,
          Event.startPoll signature], Except.ok ())
  | _, _ => ([], Except.ok ())

/-- Environment for the lookup-table end-to-end use case: the three
getLatestBlockhash fetches and the outcomes of createAddressLookupTable
(signature and derived table address), extendAddressLookupTable, and
signAndSendTransactionV0WithLookupTable, in source order. -/
structure LutEnv where
  blockhash1 : Except String String
  createRes : Except String (String × String)
  blockhash2 : Except String String
  extendRes : Except String String
  blockhash3 : Except String String
  sendV0Res : Except String String

/-- handleSignAndSendTransactionV0WithLookupTable: creates the table,
extends it, and sends a versioned transaction referencing it, strictly in
that order.  Each pollSignatureStatus call is made without await
(fire-and-forget), so the handler proceeds to the next dispatch
immediately; no step waits for any confirmation. -/
def handleSignAndSendTransactionV0WithLookupTable (publicKey : Option String)
    (wallet : Bool) (env : LutEnv) : List Event × Except String Unit :=
  match publicKey, wallet with
  | some _, true =>
    match env.blockhash1 with
    | Except.error e =>
      ([Event.fetchBlockhash,
        Event.log ⟨LogStatus.error, "signAndSendTransactionV0WithLookupTable", e⟩],
       Except.ok ())
    | Except.ok bh1 =>
      match env.createRes with
      | Except.error e =>
        ([Event.fetchBlockhash, Event.dispatchCreateLut bh1,
          Event.log ⟨LogStatus.error, "signAndSendTransactionV0WithLookupTable", e⟩],
         Except.ok ())
      | Except.ok (lookupSignature, lookupTableAddress) =>
        let pre1 :=
          [Event.fetchBlockhash, Event.dispatchCreateLut bh1,
           Event.log ⟨LogStatus.info, "signAndSendTransactionV0WithLookupTable",
             s!"Signed and submitted transactionV0 to make an Address Lookup Table {lookupTableAddress} with signature: {lookupSignature}. Please wait for 5-7 seconds after signing the next transaction to be able to see the next transaction popup. This time is needed as newly appended addresses require one slot to warmup before being available to transactions for lookups."⟩,
           Event.startPoll lookupSignature]
        match env.blockhash2 with
        | Except.error e =>
          (pre1 ++ [Event.fetchBlockhash,
            Event.log ⟨LogStatus.error, "signAndSendTransactionV0WithLookupTable", e⟩],
           Except.ok ())
        | Except.ok bh2 =>
          match env.extendRes with
          | Except.error e =>
            (pre1 ++ [Event.fetchBlockhash,
              Event.dispatchExtendLut bh2 lookupTableAddress,
              Event.log ⟨LogStatus.error, "signAndSendTransactionV0WithLookupTable", e⟩],
             Except.ok ())
          | Except.ok extensionSignature =>
            let pre2 := pre1 ++
              [Event.fetchBlockhash,
               Event.dispatchExtendLut bh2 lookupTableAddress,
               Event.log ⟨LogStatus.info, "signAndSendTransactionV0WithLookupTable",
                 s!"Signed and submitted transactionV0 to extend Address Lookup Table {extensionSignature}."⟩,
               Event.startPoll extensionSignature]
            match env.blockhash3 with
            | Except.error e =>
              (pre2 ++ [Event.fetchBlockhash,
                Event.log ⟨LogStatus.error, "signAndSendTransactionV0WithLookupTable", e⟩],
               Except.ok ())
            | Except.ok bh3 =>
              match env.sendV0Res with
              | Except.error e =>
                (pre2 ++ [Event.fetchBlockhash,
                  Event.dispatchV0Lut bh3 lookupTableAddress,
                  Event.log ⟨LogStatus.error, "signAndSendTransactionV0WithLookupTable", e⟩],
                 Except.ok ())
              | Except.ok signature =>
                (pre2 ++ [Event.fetchBlockhash,
                  Event.dispatchV0Lut bh3 lookupTableAddress,
                  Event.log ⟨LogStatus.info, "signAndSendTransactionV0WithLookupTable",
                    s!"Signed and submitted transactionV0 with Address Lookup Table {signature}."⟩,
                  Event.startPoll signature], Except.ok ())
  | _, _ => ([], Except.ok ())

/-- Environment for handleSignTransaction: builder outcome and the
signTransaction capability outcome. -/
structure SignOnlyEnv where
  buildRes : Except String String
  signRes : Except String String

/-- handleSignTransaction: build a legacy transfer, log info, sign only,
log success with the signed transaction; errors are caught and logged. -/
def handleSignTransaction (publicKey : Option String) (wallet : Bool)
    (env : SignOnlyEnv) : List Event × Except String Unit :=
  match publicKey, wallet with
  | some _, true =>
    match env.buildRes with
    | Except.error e =>
      ([Event.buildLegacy,
        Event.log ⟨LogStatus.error, "signTransaction", e⟩], Except.ok ())
    | Except.ok tx =>
      match env.signRes with
      | Except.error e =>
        ([Event.buildLegacy,
          Event.log ⟨LogStatus.info, "signTransaction",
            s!"Requesting signature for: {tx}"⟩,
          Event.dispatchSignOnly tx,
          Event.log ⟨LogStatus.error, "signTransaction", e⟩], Except.ok ())
      | Except.ok signedTransaction =>
        ([Event.buildLegacy,
          Event.log ⟨LogStatus.info, "signTransaction",
            s!"Requesting signature for: {tx}"⟩,
          Event.dispatchSignOnly tx,
          Event.log ⟨LogStatus.success, "signTransaction",
            s!"Transaction signed: {signedTransaction}"⟩], Except.ok ())
  | _, _ => ([], Except.ok ())

/-- Environment for handleSignAllTransactions: the two builder calls and
the signAllTransactions capability outcome. -/
structure SignAllEnv where
  buildRes1 : Except String String
  buildRes2 : Except String String
  signAllRes : Except String (List String)

/-- handleSignAllTransactions: build two legacy transfers, log info,
dispatch both to signAllTransactions, log success with the signed batch;
errors are caught and logged. -/
def handleSignAllTransactions (publicKey : Option String) (wallet : Bool)
    (env : SignAllEnv) : List Event × Except String Unit :=
  match publicKey, wallet with
  | some _, true =>
    match env.buildRes1 with
    | Except.error e =>
      ([Event.buildLegacy,
        Event.log ⟨LogStatus.error, "signAllTransactions", e⟩], Except.ok ())
    | Except.ok tx1 =>
      match env.buildRes2 with
      | Except.error e =>
        ([Event.buildLegacy, Event.buildLegacy,
          Event.log ⟨LogStatus.error, "signAllTransactions", e⟩], Except.ok ())
      | Except.ok tx2 =>
        match env.signAllRes with
        | Except.error e =>
          ([Event.buildLegacy, Event.buildLegacy,
            Event.log ⟨LogStatus.info, "signAllTransactions",
              s!"Requesting signature for: {[tx1, tx2]}"⟩,
            Event.dispatchSignAll [tx1, tx2],
            Event.log ⟨LogStatus.error, "signAllTransactions", e⟩], Except.ok ())
        | Except.ok signedTransactions =>
          ([Event.buildLegacy, Event.buildLegacy,
            Event.log ⟨LogStatus.info, "signAllTransactions",
              s!"Requesting signature for: {[tx1, tx2]}"⟩,
            Event.dispatchSignAll [tx1, tx2],
            Event.log ⟨LogStatus.success, "signAllTransactions",
              s!"Transactions signed: {signedTransactions}"⟩], Except.ok ())
  | _, _ => ([], Except.ok ())

/-- The fixed message constant signed by the signMessage use case. -/
def message : String :=
  "To avoid digital dognappers, sign below to authenticate with CryptoCorgis."

/-- Environment for handleSignMessage: the signMessage capability outcome. -/
structure SignMsgEnv where
  signRes : Except String String

/-- handleSignMessage: dispatch the fixed message for signing, log success
with the signed message; errors are caught and logged. -/
def handleSignMessage (publicKey : Option String) (wallet : Bool)
    (env : SignMsgEnv) : List Event × Except String Unit :=
  match publicKey, wallet with
  | some _, true =>
    match env.signRes with
    | Except.error e =>
      ([Event.dispatchSignMessage message,
        Event.log ⟨LogStatus.error, "signMessage", e⟩], Except.ok ())
    | Except.ok signedMessage =>
      ([Event.dispatchSignMessage message,
        Event.log ⟨LogStatus.success, "signMessage",
          s!"Message signed: {signedMessage}"⟩], Except.ok ())
  | _, _ => ([], Except.ok ())

/-- The record the signIn capability resolves with: the wallet account
address, the signed message bytes (kept as text) and the signature. -/
structure SignInOut where
  account : String
  signedMessage : String
  signature : String
deriving DecidableEq, Repr

/-- Environment for the sign-in use cases: the challenge-producer outcome
(createSignInData or createSignInErrorData) and the signIn capability
outcome. -/
structure SignInEnv where
  challengeRes : Except String String
  signInRes : Except String SignInOut

/-- handleSignIn: awaits createSignInData BEFORE the try block, then
dispatches signIn inside it; a success logs a success entry with method
signIn, a signIn rejection logs an error entry with method signIn, but a
challenge-creation failure escapes the handler with no log entry. -/
def handleSignIn (publicKey : Option String) (wallet : Bool)
    (env : SignInEnv) : List Event × Except String Unit :=
  match publicKey, wallet with
  | some _, true =>
    match env.challengeRes with
    | Except.error e => ([Event.createChallenge false], Except.error e)
    | Except.ok _ =>
      match env.signInRes with
      | Except.error e =>
        ([Event.createChallenge false, Event.dispatchSignIn,
          Event.log ⟨LogStatus.error, "signIn", e⟩], Except.ok ())
      | Except.ok out =>
        ([Event.createChallenge false, Event.dispatchSignIn,
          Event.log ⟨LogStatus.success, "signIn",
            s!"Message signed: {out.signedMessage} by {out.account} with signature {out.signature}"⟩],
         Except.ok ())
  | _, _ => ([], Except.ok ())

/-- handleSignInError: awaits createSignInErrorData BEFORE the try block,
then dispatches signIn inside it; the success branch logs its entry with
method signMessage (as written in the source), the error branch with
method signIn; a challenge-creation failure escapes with no log entry. -/
def handleSignInError (publicKey : Option String) (wallet : Bool)
    (env : SignInEnv) : List Event × Except String Unit :=
  match publicKey, wallet with
  | some _, true =>
    match env.challengeRes with
    | Except.error e => ([Event.createChallenge true], Except.error e)
    | Except.ok _ =>
      match env.signInRes with
      | Except.error e =>
        ([Event.createChallenge true, Event.dispatchSignIn,
          Event.log ⟨LogStatus.error, "signIn", e⟩], Except.ok ())
      | Except.ok out =>
        ([Event.createChallenge true, Event.dispatchSignIn,
          Event.log ⟨LogStatus.success, "signMessage",
            s!"Message signed: {out.signedMessage} by {out.account} with signature {out.signature}"⟩],
         Except.ok ())
  | _, _ => ([], Except.ok ())

/-- Environment for handleConnect. -/
structure ConnectEnv where
  connectRes : Except String Unit

/-- handleConnect: calls connect; a failure is caught and logged, a
success produces no entry from this handler. -/
def handleConnect (publicKey : Option String) (wallet : Bool)
    (env : ConnectEnv) : List Event × Except String Unit :=
  match publicKey, wallet with
  | some _, true =>
    match env.connectRes with
    | Except.error e =>
      ([Event.connectCall,
        Event.log ⟨LogStatus.error, "connect", e⟩], Except.ok ())
    | Except.ok _ => ([Event.connectCall], Except.ok ())
  | _, _ => ([], Except.ok ())

/-- Environment for handleDisconnect. -/
structure DisconnectEnv where
  disconnectRes : Except String Unit

/-- handleDisconnect: calls disconnect, logs a warning entry on success
and an error entry on failure. -/
def handleDisconnect (publicKey : Option String) (wallet : Bool)
    (env : DisconnectEnv) : List Event × Except String Unit :=
  match publicKey, wallet with
  | some _, true =>
    match env.disconnectRes with
    | Except.error e =>
      ([Event.disconnectCall,
        Event.log ⟨LogStatus.error, "disconnect", e⟩], Except.ok ())
    | Except.ok _ =>
      ([Event.disconnectCall,
        Event.log ⟨LogStatus.warning, "disconnect", "👋"⟩], Except.ok ())
  | _, _ => ([], Except.ok ())

/-- autoSignIn: the autoConnect callback handed to WalletProvider.  When
the adapter lacks signIn it returns true (plain auto-connect); otherwise
it creates a challenge, runs the adapter signIn, throws when verifySignIn
returns false, and returns false after a verified sign-in. -/
def autoSignIn (hasSignIn : Bool) (challenge : Except String String)
    (adapterSignIn : String → Except String String)
    (verify : String → String → Bool) : Except String Bool :=
  match hasSignIn with
  | false => Except.ok true
  | true =>
    match challenge with
    | Except.error e => Except.error e
    | Except.ok input =>
      match adapterSignIn input with
      | Except.error e => Except.error e
      | Except.ok output =>
        match verify input output with
        | false => Except.error "Sign In verification failed!"
        | true => Except.ok false

/-- Modelled from the spec: the session provider activates an account from
an auto-connect attempt only when the autoConnect callback returns without
throwing (the WalletProvider handling of the callback is external to the
repository). -/
def accountActivated (r : Except String Bool) : Bool :=
  match r with
  | Except.ok _ => true
  | Except.error _ => false

/-- Modelled from the spec: the signAllTransactions utility (src/utils,
not included under src/) — `signBatch(transactions, signerCapability)`
signs the ordered sequence member by member, preserving input order in
the output, and fails the whole batch atomically if the capability
rejects any member (no partial batch success). -/
def signBatch : List String → (String → Except String String) → Except String (List String)
  | [], _ => Except.ok []
  | t :: ts, cap =>
    match cap t with
    | Except.error e => Except.error e
    | Except.ok s =>
      match signBatch ts cap with
      | Except.error e => Except.error e
      | Except.ok rest => Except.ok (s :: rest)

/-- Modelled from the spec: ConfirmationStatus of the Confirmation Poller
(pending, confirmed, finalized, failed(reason), timed-out). -/
inductive ConfStatus
  | pending
  | confirmed
  | finalized
  | failed (reason : String)
  | timedOut
deriving DecidableEq, Repr

/-- A status at which the poller stops: everything except pending
(transient errors are treated as pending by the spec). -/
def isTerminal : ConfStatus → Bool
  | ConfStatus.pending => false
  | _ => true

/-- Modelled from the spec: the poller's attempt budget (reference: up to
30 checks at a 2-3 second spacing; Scenario 4 uses 30 attempts). -/
def pollBudget : Nat := 30

/-- Modelled from the spec: the polling loop of pollSignatureStatus —
repeated status checks until a terminal status is observed or the attempt
budget is exhausted; returns the final status and the number of checks
performed. -/
def pollLoop (statusAt : Nat → ConfStatus) : Nat → Nat → ConfStatus × Nat
  | 0, attempts => (ConfStatus.timedOut, attempts)
  | fuel + 1, attempts =>
    let s := statusAt attempts
    match isTerminal s with
    | true => (s, attempts + 1)
    | false => pollLoop statusAt fuel (attempts + 1)

/-- Modelled from the spec: the number of status checks a poll started by
a use-case invocation performs when the caller abandons interest at time
abandonAt.  The call sites invoke pollSignatureStatus(signature,
connection, createLog) — no cancellation signal is among the arguments —
so the abandonment time cannot reach the loop and the count is computed
from the network schedule alone. -/
def pollAttemptsWithAbandon (statusAt : Nat → ConfStatus)
    (abandonAt : Option Nat) : Nat :=
  (pollLoop statusAt pollBudget 0).2

/-- The create-step submission receipt of a lookup-table execution, when
the create dispatch returned one. -/
def lutCreateReceipt (env : LutEnv) : Option String :=
  match env.createRes with
  | Except.ok pr => some pr.1
  | Except.error _ => none

/-- The extend-step submission receipt of a lookup-table execution, when
the extend dispatch returned one. -/
def lutExtendReceipt (env : LutEnv) : Option String :=
  match env.extendRes with
  | Except.ok s => some s
  | Except.error _ => none

/-- Whether an event is the extend-table dispatch. -/
def isExtendDispatch : Event → Bool
  | Event.dispatchExtendLut _ _ => true
  | _ => false

/-- Whether an event is the dispatch of the versioned transaction that
references the lookup table. -/
def isV0LutDispatch : Event → Bool
  | Event.dispatchV0Lut _ _ => true
  | _ => false

/-- The C1 claim as stated: in every execution of the lookup-table use
case (an environment for the external calls together with a chain-side
schedule confirmedAt giving the time at which each receipt reaches
confirmed, none meaning never), the extend step is dispatched only if the
create receipt reaches confirmed, and the versioned transaction using the
table is dispatched only if the extend receipt reaches confirmed. -/
def LutUsedOnlyAfterConfirm : Prop :=
  ∀ (pk : String) (env : LutEnv) (confirmedAt : String → Option Nat),
    (((handleSignAndSendTransactionV0WithLookupTable (some pk) true env).1.any
        isExtendDispatch) = true →
      ∃ s t, lutCreateReceipt env = some s ∧ confirmedAt s = some t) ∧
    (((handleSignAndSendTransactionV0WithLookupTable (some pk) true env).1.any
        isV0LutDispatch) = true →
      ∃ s t, lutExtendReceipt env = some s ∧ confirmedAt s = some t)

/-- An execution of the lookup-table use case in which all six external
calls succeed. -/
def lutEnvAllOk : LutEnv :=
  ⟨Except.ok "bh1", Except.ok ("createSig", "tableAddr"), Except.ok "bh2",
   Except.ok "extendSig", Except.ok "bh3", Except.ok "v0Sig"⟩

/-- An adapter sign-in outcome used to exercise the failed-verification
path at a concrete input. -/
def autoAdapterOut : String → Except String String := fun _ => Except.ok "badOutput"

/-- A verification function that rejects every challenge/response pair. -/
def autoVerifyFalse : String → String → Bool := fun _ _ => false

/-- A signer capability that approves every transaction with a fixed
signature. -/
def capApprove : String → Except String String := fun _ => Except.ok "signed"

/-- A signer capability that declines every transaction. -/
def capDecline : String → Except String String := fun _ => Except.error "declined"

/-- An adapter sign-in outcome used to exercise the verified sign-in path
at a concrete input. -/
def autoAdapterOk : String → Except String String := fun _ => Except.ok "output1"

/-- A verification function that accepts every challenge/response pair. -/
def autoVerifyTrue : String → String → Bool := fun _ _ => true


/-- Whether an event is the sign-and-submit dispatch of the plain
transfer use cases. -/
def isSendDispatch : Event → Bool
  | Event.dispatchSend _ => true
  | _ => false

/-- Whether an event is the sign-only dispatch. -/
def isSignOnlyDispatch : Event → Bool
  | Event.dispatchSignOnly _ => true
  | _ => false

/-- Whether an event is the sign-all batch dispatch. -/
def isSignAllDispatch : Event → Bool
  | Event.dispatchSignAll _ => true
  | _ => false

/-- The C2 claim as stated over the embedded use-case methods: every
method catches every error thrown by any step inside it — including
challenge creation — at its boundary (so no invocation ever rejects), and
a failing step inside the sign-in method yields exactly one error-status
entry carrying the original message. -/
def CatchesAllErrors : Prop :=
  (∀ pk (env : SendEnv), (handleSignAndSendTransaction (some pk) true env).2 = Except.ok ()) ∧
  (∀ pk (env : SendEnv), (handleSignAndSendTransactionV0 (some pk) true env).2 = Except.ok ()) ∧
  (∀ pk (env : LutEnv),
    (handleSignAndSendTransactionV0WithLookupTable (some pk) true env).2 = Except.ok ()) ∧
  (∀ pk (env : SignOnlyEnv), (handleSignTransaction (some pk) true env).2 = Except.ok ()) ∧
  (∀ pk (env : SignAllEnv), (handleSignAllTransactions (some pk) true env).2 = Except.ok ()) ∧
  (∀ pk (env : SignMsgEnv), (handleSignMessage (some pk) true env).2 = Except.ok ()) ∧
  (∀ pk (env : SignInEnv), (handleSignIn (some pk) true env).2 = Except.ok ()) ∧
  (∀ pk (env : SignInEnv) e, env.challengeRes = Except.error e →
    errorEntries (handleSignIn (some pk) true env).1 =
      [⟨LogStatus.error, "signIn", e⟩]) ∧
  (∀ pk (env : SignInEnv), (handleSignInError (some pk) true env).2 = Except.ok ())

/-- A sign-in environment whose challenge creation fails. -/
def signInEnvChalFail : SignInEnv :=
  ⟨Except.error "boom", Except.ok ⟨"acct1", "msg1", "sig1"⟩⟩

/-- The C4 claim as stated for the submit-producing plain transfer use
case: on a successful dispatch, an info-status entry is emitted before
the dispatch to the external signer, a success- or error-status entry is
emitted after the dispatch completes, and the returned receipt is handed
to the Confirmation Poller. -/
def EmitsFinalStatusAfterDispatch : Prop :=
  ∀ pk (env : SendEnv) tx sig,
    env.buildRes = Except.ok tx → env.sendRes = Except.ok sig →
    ((beforeFirst isSendDispatch
        (handleSignAndSendTransaction (some pk) true env).1).any isInfoLog = true) ∧
    ((afterFirst isSendDispatch
        (handleSignAndSendTransaction (some pk) true env).1).any isFinalStatusLog = true) ∧
    Event.startPoll sig ∈ (handleSignAndSendTransaction (some pk) true env).1

/-- A plain-transfer environment in which the build and the combined
sign-and-submit call both succeed. -/
def sendEnvAllOk : SendEnv := ⟨Except.ok "tx1", Except.ok "sig1"⟩

/-- A sign-in environment in which the challenge and the adapter signIn
both succeed. -/
def signInEnvAllOk : SignInEnv :=
  ⟨Except.ok "challenge", Except.ok ⟨"acct1", "msg1", "sig1"⟩⟩

/-- The C9 claim as stated: a polling loop started by a use-case
invocation is cancellable per invocation by the caller — a caller that
abandons interest at time t causes that invocation to perform no further
status checks, so the number of checks is at most t. -/
def PollIndependentlyCancellable : Prop :=
  ∀ (statusAt : Nat → ConfStatus) (t : Nat),
    pollAttemptsWithAbandon statusAt (some t) ≤ t

/-- Whether an event is the create-table dispatch. -/
def isCreateLutDispatch : Event → Bool
  | Event.dispatchCreateLut _ => true
  | _ => false

/-- The error message of a failed step outcome, if any. -/
def resFailure {α : Type} (r : Except String α) : Option String :=
  match r with
  | Except.error e => some e
  | Except.ok _ => none

/-- The zero or one error entries a use-case method appends: exactly one,
tagged with the given method name and carrying the original message, when
a step inside its try block failed; none otherwise. -/
def errEntryList (method : String) : Option String → List TLog
  | some e => [⟨LogStatus.error, method, e⟩]
  | none => []

/-- The first failing step of a plain-transfer execution, in source
order: build, then the combined sign-and-submit call. -/
def sendFirstFailure (env : SendEnv) : Option String :=
  match env.buildRes with
  | Except.error e => some e
  | Except.ok _ => resFailure env.sendRes

/-- The first failing step of a lookup-table execution, in source order:
fetch, create, fetch, extend, fetch, send. -/
def lutFirstFailure (env : LutEnv) : Option String :=
  match env.blockhash1 with
  | Except.error e => some e
  | Except.ok _ =>
    match env.createRes with
    | Except.error e => some e
    | Except.ok _ =>
      match env.blockhash2 with
      | Except.error e => some e
      | Except.ok _ =>
        match env.extendRes with
        | Except.error e => some e
        | Except.ok _ =>
          match env.blockhash3 with
          | Except.error e => some e
          | Except.ok _ => resFailure env.sendV0Res

/-- The first failing step of a sign-only execution: build, then sign. -/
def signOnlyFirstFailure (env : SignOnlyEnv) : Option String :=
  match env.buildRes with
  | Except.error e => some e
  | Except.ok _ => resFailure env.signRes

/-- The first failing step of a sign-all execution: the two builds, then
the batch signing call. -/
def signAllFirstFailure (env : SignAllEnv) : Option String :=
  match env.buildRes1 with
  | Except.error e => some e
  | Except.ok _ =>
    match env.buildRes2 with
    | Except.error e => some e
    | Except.ok _ => resFailure env.signAllRes

/-- A sign-in environment whose challenge succeeds and whose adapter
signIn call is declined. -/
def signInEnvDeclined : SignInEnv :=
  ⟨Except.ok "challenge", Except.error "declined"⟩

/-- Helper: a queue of functional appends applied in order appends the
pending entries at the end. -/
theorem applyAppends_eq_append (logs pending : List TLog) :
    applyAppends logs pending = logs ++ pending := by
  induction pending generalizing logs with
  | nil => simp [applyAppends]
  | cons p ps ih =>
    have h : applyAppends logs (p :: ps) = applyAppends (logs ++ [p]) ps := rfl
    rw [h, ih]
    simp

/-- Helper: a successful signBatch run has one output per input, the i-th
output produced by the capability from the i-th input. -/
theorem signBatch_ok_spec (txs : List String) (cap : String → Except String String) :
    ∀ out, signBatch txs cap = Except.ok out →
      out.length = txs.length ∧ ∀ p ∈ txs.zip out, cap p.1 = Except.ok p.2 := by
  induction txs with
  | nil =>
    intro out h
    simp only [signBatch, Except.ok.injEq] at h
    subst h
    simp
  | cons t ts ih =>
    intro out h
    simp only [signBatch] at h
    cases hct : cap t with
    | error e => rw [hct] at h; simp at h
    | ok s =>
      rw [hct] at h
      cases hrec : signBatch ts cap with
      | error e => rw [hrec] at h; simp at h
      | ok rest =>
        rw [hrec] at h
        simp only [Except.ok.injEq] at h
        subst h
        obtain ⟨hlen, hpt⟩ := ih rest hrec
        refine ⟨by simp [hlen], ?_⟩
        intro p hp
        rw [List.zip_cons_cons] at hp
        rcases List.mem_cons.mp hp with hp | hp
        · subst hp; exact hct
        · exact hpt p hp

/-- Helper: a rejection of any member fails the whole batch. -/
theorem signBatch_reject_atomic (txs : List String) (cap : String → Except String String) :
    ∀ tx e, tx ∈ txs → cap tx = Except.error e →
      ∃ e2, signBatch txs cap = Except.error e2 := by
  induction txs with
  | nil => intro tx e htx _; simp at htx
  | cons t ts ih =>
    intro tx e htx hce
    rcases List.mem_cons.mp htx with rfl | hmem
    · exact ⟨e, by simp [signBatch, hce]⟩
    · cases hct : cap t with
      | error e3 => exact ⟨e3, by simp [signBatch, hct]⟩
      | ok s =>
        obtain ⟨e2, h2⟩ := ih tx e hmem hce
        exact ⟨e2, by simp [signBatch, hct, h2]⟩

/-- C1: counterexample — the claim that the lookup-table use case
dispatches the extend step only after the create receipt is confirmed
(and the versioned transaction only after the extend receipt is
confirmed) is false: in an execution where every external call succeeds
but no receipt ever reaches confirmed, the handler still dispatches the
extend step, because each pollSignatureStatus call is fire-and-forget and
nothing waits for a confirmation. -/
theorem lut_used_without_confirmation : ¬ LutUsedOnlyAfterConfirm := by
  intro h
  obtain ⟨s, t, _, ht⟩ := (h "pk" lutEnvAllOk (fun _ => none)).1 (by decide)
  exact Option.noConfusion ht

/-- C1 (amended): whenever the six external calls of the lookup-table use
case all succeed, the handler performs exactly this event sequence —
create dispatch, info log, fire-and-forget poll of the create receipt,
extend dispatch, info log, fire-and-forget poll of the extend receipt,
versioned-transaction dispatch, info log, fire-and-forget poll — i.e. the
three submissions happen strictly in that order with a poll started after
each, and no step waits for any receipt to reach confirmed or for an
extra confirmation interval; the warm-up is delegated to the user via the
wait instruction in the first info message. -/
theorem lut_dispatch_order (pk bh1 cs tbl bh2 es bh3 vs : String) (env : LutEnv)
    (h1 : env.blockhash1 = Except.ok bh1)
    (h2 : env.createRes = Except.ok (cs, tbl))
    (h3 : env.blockhash2 = Except.ok bh2)
    (h4 : env.extendRes = Except.ok es)
    (h5 : env.blockhash3 = Except.ok bh3)
    (h6 : env.sendV0Res = Except.ok vs) :
    handleSignAndSendTransactionV0WithLookupTable (some pk) true env =
      ([Event.fetchBlockhash, Event.dispatchCreateLut bh1,
        Event.log ⟨LogStatus.info, "signAndSendTransactionV0WithLookupTable",
          s!"Signed and submitted transactionV0 to make an Address Lookup Table {tbl} with signature: {cs}. Please wait for 5-7 seconds after signing the next transaction to be able to see the next transaction popup. This time is needed as newly appended addresses require one slot to warmup before being available to transactions for lookups."⟩,
        Event.startPoll cs,
        Event.fetchBlockhash, Event.dispatchExtendLut bh2 tbl,
        Event.log ⟨LogStatus.info, "signAndSendTransactionV0WithLookupTable",
          s!"Signed and submitted transactionV0 to extend Address Lookup Table {es}."⟩,
        Event.startPoll es,
        Event.fetchBlockhash, Event.dispatchV0Lut bh3 tbl,
        Event.log ⟨LogStatus.info, "signAndSendTransactionV0WithLookupTable",
          s!"Signed and submitted transactionV0 with Address Lookup Table {vs}."⟩,
        Event.startPoll vs], Except.ok ()) := by
  cases env
  subst h1 h2 h3 h4 h5 h6
  rfl

/-- C1 (amended) witness: the event sequence of the all-successful
execution lutEnvAllOk. -/
theorem lut_dispatch_order_witness :
    handleSignAndSendTransactionV0WithLookupTable (some "pk") true lutEnvAllOk =
      ([Event.fetchBlockhash, Event.dispatchCreateLut "bh1",
        Event.log ⟨LogStatus.info, "signAndSendTransactionV0WithLookupTable",
          "Signed and submitted transactionV0 to make an Address Lookup Table tableAddr with signature: createSig. Please wait for 5-7 seconds after signing the next transaction to be able to see the next transaction popup. This time is needed as newly appended addresses require one slot to warmup before being available to transactions for lookups."⟩,
        Event.startPoll "createSig",
        Event.fetchBlockhash, Event.dispatchExtendLut "bh2" "tableAddr",
        Event.log ⟨LogStatus.info, "signAndSendTransactionV0WithLookupTable",
          "Signed and submitted transactionV0 to extend Address Lookup Table extendSig."⟩,
        Event.startPoll "extendSig",
        Event.fetchBlockhash, Event.dispatchV0Lut "bh3" "tableAddr",
        Event.log ⟨LogStatus.info, "signAndSendTransactionV0WithLookupTable",
          "Signed and submitted transactionV0 with Address Lookup Table v0Sig."⟩,
        Event.startPoll "v0Sig"], Except.ok ()) :=
  lut_dispatch_order "pk" "bh1" "createSig" "tableAddr" "bh2" "extendSig"
    "bh3" "v0Sig" lutEnvAllOk rfl rfl rfl rfl rfl rfl

/-- C3: when no active account reference exists (publicKey absent or
wallet absent), every use-case method returns immediately as a no-op — an
empty event trace (so no log entry and no builder, signer or network
call) and a resolved promise. -/
theorem no_account_noop (publicKey : Option String) (wallet : Bool)
    (h : publicKey = none ∨ wallet = false)
    (e1 e2 : SendEnv) (e3 : LutEnv) (e4 : SignOnlyEnv) (e5 : SignAllEnv)
    (e6 : SignMsgEnv) (e7 e8 : SignInEnv) (e9 : ConnectEnv)
    (e10 : DisconnectEnv) :
    handleSignAndSendTransaction publicKey wallet e1 = ([], Except.ok ()) ∧
    handleSignAndSendTransactionV0 publicKey wallet e2 = ([], Except.ok ()) ∧
    handleSignAndSendTransactionV0WithLookupTable publicKey wallet e3 = ([], Except.ok ()) ∧
    handleSignTransaction publicKey wallet e4 = ([], Except.ok ()) ∧
    handleSignAllTransactions publicKey wallet e5 = ([], Except.ok ()) ∧
    handleSignMessage publicKey wallet e6 = ([], Except.ok ()) ∧
    handleSignIn publicKey wallet e7 = ([], Except.ok ()) ∧
    handleSignInError publicKey wallet e8 = ([], Except.ok ()) ∧
    handleConnect publicKey wallet e9 = ([], Except.ok ()) ∧
    handleDisconnect publicKey wallet e10 = ([], Except.ok ()) := by
  rcases h with h | h
  · subst h
    exact ⟨rfl, rfl, rfl, rfl, rfl, rfl, rfl, rfl, rfl, rfl⟩
  · subst h
    cases publicKey <;> exact ⟨rfl, rfl, rfl, rfl, rfl, rfl, rfl, rfl, rfl, rfl⟩

/-- C3 witness: the no-op at a concrete disconnected state (publicKey
absent) with successful environments everywhere. -/
theorem no_account_noop_witness :
    handleSignAndSendTransaction none true ⟨Except.ok "t", Except.ok "s"⟩ = ([], Except.ok ()) ∧
    handleSignAndSendTransactionV0 none true ⟨Except.ok "t", Except.ok "s"⟩ = ([], Except.ok ()) ∧
    handleSignAndSendTransactionV0WithLookupTable none true lutEnvAllOk = ([], Except.ok ()) ∧
    handleSignTransaction none true ⟨Except.ok "t", Except.ok "s"⟩ = ([], Except.ok ()) ∧
    handleSignAllTransactions none true ⟨Except.ok "t", Except.ok "u", Except.ok ["s"]⟩ = ([], Except.ok ()) ∧
    handleSignMessage none true ⟨Except.ok "s"⟩ = ([], Except.ok ()) ∧
    handleSignIn none true ⟨Except.ok "c", Except.ok ⟨"a", "m", "g"⟩⟩ = ([], Except.ok ()) ∧
    handleSignInError none true ⟨Except.ok "c", Except.ok ⟨"a", "m", "g"⟩⟩ = ([], Except.ok ()) ∧
    handleConnect none true ⟨Except.ok ()⟩ = ([], Except.ok ()) ∧
    handleDisconnect none true ⟨Except.ok ()⟩ = ([], Except.ok ()) :=
  no_account_noop none true (Or.inl rfl) ⟨Except.ok "t", Except.ok "s"⟩
    ⟨Except.ok "t", Except.ok "s"⟩ lutEnvAllOk ⟨Except.ok "t", Except.ok "s"⟩
    ⟨Except.ok "t", Except.ok "u", Except.ok ["s"]⟩ ⟨Except.ok "s"⟩
    ⟨Except.ok "c", Except.ok ⟨"a", "m", "g"⟩⟩
    ⟨Except.ok "c", Except.ok ⟨"a", "m", "g"⟩⟩ ⟨Except.ok ()⟩ ⟨Except.ok ()⟩

/-- C8: every append is a single atomic push of one structured entry at
the end — the previous log is preserved unchanged as a prefix, exactly
the one new entry follows it — and a queue of concurrent appends applied
in order yields the old log followed by the pending entries, with no
interleaving inside an entry. -/
theorem createLog_atomic_append (logs : List TLog) (entry : TLog)
    (pending : List TLog) :
    (createLog logs entry).take logs.length = logs ∧
    (createLog logs entry).drop logs.length = [entry] ∧
    (createLog logs entry).length = logs.length + 1 ∧
    applyAppends logs pending = logs ++ pending := by
  refine ⟨?_, ?_, ?_, applyAppends_eq_append logs pending⟩
  · exact List.take_left logs [entry]
  · exact List.drop_left logs [entry]
  · simp [createLog]

/-- C6: in the auto-connect flow, when the adapter has a signIn
capability, the challenge and the adapter sign-in succeed, but
verifySignIn returns false for the challenge/response pair, the
autoSignIn callback throws (rejects with the verification-failure error)
rather than returning, and no account reference becomes active from the
attempt. -/
theorem autoSignIn_aborts_on_failed_verify (ch : Except String String)
    (f : String → Except String String) (v : String → String → Bool)
    (i o : String) (hch : ch = Except.ok i) (hf : f i = Except.ok o)
    (hv : v i o = false) :
    autoSignIn true ch f v = Except.error "Sign In verification failed!" ∧
    accountActivated (autoSignIn true ch f v) = false := by
  subst hch
  refine ⟨?_, ?_⟩
  · simp [autoSignIn, hf, hv]
  · simp [autoSignIn, accountActivated, hf, hv]

/-- C6 witness: the failed-verification abort at a concrete input. -/
theorem autoSignIn_aborts_on_failed_verify_witness :
    autoSignIn true (Except.ok "challenge2") autoAdapterOut autoVerifyFalse =
      Except.error "Sign In verification failed!" ∧
    accountActivated (autoSignIn true (Except.ok "challenge2") autoAdapterOut
      autoVerifyFalse) = false :=
  autoSignIn_aborts_on_failed_verify (Except.ok "challenge2") autoAdapterOut
    autoVerifyFalse "challenge2" "badOutput" rfl rfl rfl

/-- C7: signBatch returns, on success, a sequence of the same length as
its input in which the i-th output is the capability's signature of the
i-th input (stated over the zipped pairs), and if the capability rejects
any member the whole batch fails with an error (no partial batch
success). -/
theorem signBatch_order_and_atomicity (txs : List String)
    (cap : String → Except String String) :
    (∀ out, signBatch txs cap = Except.ok out →
      out.length = txs.length ∧ ∀ p ∈ txs.zip out, cap p.1 = Except.ok p.2) ∧
    (∀ tx e, tx ∈ txs → cap tx = Except.error e →
      ∃ e2, signBatch txs cap = Except.error e2) :=
  ⟨signBatch_ok_spec txs cap, signBatch_reject_atomic txs cap⟩

/-- C7 witness: order preservation on a concrete two-element batch with an
approving capability, and atomic failure with a declining one. -/
theorem signBatch_order_and_atomicity_witness :
    (["signed", "signed"].length = ["tx1", "tx2"].length ∧
      ∀ p ∈ ["tx1", "tx2"].zip ["signed", "signed"], capApprove p.1 = Except.ok p.2) ∧
    (∃ e2, signBatch ["tx1", "tx2"] capDecline = Except.error e2) :=
  ⟨(signBatch_order_and_atomicity ["tx1", "tx2"] capApprove).1 ["signed", "signed"] rfl,
   (signBatch_order_and_atomicity ["tx1", "tx2"] capDecline).2 "tx1" "declined"
     (List.mem_cons_self "tx1" ["tx2"]) rfl⟩

/-- C10: the autoSignIn callback returns true exactly when the adapter
lacks a signIn capability; when signIn is present it never returns true —
any non-throwing run returns false and certifies that the challenge was
produced, the adapter sign-in succeeded, and verification returned true,
so a signIn-capable adapter is never silently auto-connected without a
verified sign-in. -/
theorem autoSignIn_gate (ch : Except String String)
    (f : String → Except String String) (v : String → String → Bool) :
    autoSignIn false ch f v = Except.ok true ∧
    (∀ b, autoSignIn true ch f v = Except.ok b →
      b = false ∧ ∃ i o, ch = Except.ok i ∧ f i = Except.ok o ∧ v i o = true) := by
  refine ⟨rfl, ?_⟩
  intro b h
  cases ch with
  | error e => simp [autoSignIn] at h
  | ok i =>
    cases hf : f i with
    | error e => simp [autoSignIn, hf] at h
    | ok o =>
      cases hv : v i o with
      | false => simp [autoSignIn, hf, hv] at h
      | true =>
        simp [autoSignIn, hf, hv] at h
        exact ⟨h, i, o, rfl, hf, hv⟩

/-- C10 witness: a signIn-capable adapter whose verified sign-in returns
false from the callback, certifying the verification ran and accepted. -/
theorem autoSignIn_gate_witness :
    (false : Bool) = false ∧ ∃ i o, (Except.ok "challenge1" : Except String String) = Except.ok i ∧
      autoAdapterOk i = Except.ok o ∧ autoVerifyTrue i o = true :=
  (autoSignIn_gate (Except.ok "challenge1") autoAdapterOk autoVerifyTrue).2 false rfl

/-- C2: counterexample — the claim that every use-case method catches
every error of every step at its boundary is false: in the sign-in
method the challenge-creation step runs before the try block, so when
createSignInData rejects, the handler rejects with that error and
appends no log entry at all. -/
theorem signIn_challenge_error_escapes : ¬ CatchesAllErrors := by
  intro h
  have h7 := h.2.2.2.2.2.2.1 "pk" signInEnvChalFail
  exact Except.noConfusion h7

/-- C2 (amended): every use-case method catches every error raised
inside its try block at its boundary and resolves, appending exactly one
error-status entry carrying the original message when a step inside the
try block failed (and no error entry otherwise) — stated here for all ten
methods via the first-failing-step functions; but in the sign-in and
sign-in-error methods the challenge creation precedes the try block, so a
challenge-creation error escapes the method with no log entry. -/
theorem try_block_errors_logged (pk : String) :
    (∀ (env : SendEnv),
      (handleSignAndSendTransaction (some pk) true env).2 = Except.ok () ∧
      errorEntries (handleSignAndSendTransaction (some pk) true env).1 =
        errEntryList "signAndSendTransaction" (sendFirstFailure env)) ∧
    (∀ (env : SendEnv),
      (handleSignAndSendTransactionV0 (some pk) true env).2 = Except.ok () ∧
      errorEntries (handleSignAndSendTransactionV0 (some pk) true env).1 =
        errEntryList "signAndSendTransactionV0" (sendFirstFailure env)) ∧
    (∀ (env : LutEnv),
      (handleSignAndSendTransactionV0WithLookupTable (some pk) true env).2 = Except.ok () ∧
      errorEntries (handleSignAndSendTransactionV0WithLookupTable (some pk) true env).1 =
        errEntryList "signAndSendTransactionV0WithLookupTable" (lutFirstFailure env)) ∧
    (∀ (env : SignOnlyEnv),
      (handleSignTransaction (some pk) true env).2 = Except.ok () ∧
      errorEntries (handleSignTransaction (some pk) true env).1 =
        errEntryList "signTransaction" (signOnlyFirstFailure env)) ∧
    (∀ (env : SignAllEnv),
      (handleSignAllTransactions (some pk) true env).2 = Except.ok () ∧
      errorEntries (handleSignAllTransactions (some pk) true env).1 =
        errEntryList "signAllTransactions" (signAllFirstFailure env)) ∧
    (∀ (env : SignMsgEnv),
      (handleSignMessage (some pk) true env).2 = Except.ok () ∧
      errorEntries (handleSignMessage (some pk) true env).1 =
        errEntryList "signMessage" (resFailure env.signRes)) ∧
    (∀ (env : SignInEnv) i, env.challengeRes = Except.ok i →
      (handleSignIn (some pk) true env).2 = Except.ok () ∧
      errorEntries (handleSignIn (some pk) true env).1 =
        errEntryList "signIn" (resFailure env.signInRes)) ∧
    (∀ (env : SignInEnv) e, env.challengeRes = Except.error e →
      handleSignIn (some pk) true env =
        ([Event.createChallenge false], Except.error e)) ∧
    (∀ (env : SignInEnv) i, env.challengeRes = Except.ok i →
      (handleSignInError (some pk) true env).2 = Except.ok () ∧
      errorEntries (handleSignInError (some pk) true env).1 =
        errEntryList "signIn" (resFailure env.signInRes)) ∧
    (∀ (env : SignInEnv) e, env.challengeRes = Except.error e →
      handleSignInError (some pk) true env =
        ([Event.createChallenge true], Except.error e)) ∧
    (∀ (env : ConnectEnv),
      (handleConnect (some pk) true env).2 = Except.ok () ∧
      errorEntries (handleConnect (some pk) true env).1 =
        errEntryList "connect" (resFailure env.connectRes)) ∧
    (∀ (env : DisconnectEnv),
      (handleDisconnect (some pk) true env).2 = Except.ok () ∧
      errorEntries (handleDisconnect (some pk) true env).1 =
        errEntryList "disconnect" (resFailure env.disconnectRes)) := by
  refine ⟨?_, ?_, ?_, ?_, ?_, ?_, ?_, ?_, ?_, ?_, ?_, ?_⟩
  · intro env
    obtain ⟨br, sr⟩ := env
    cases br <;> cases sr <;>
      simp [handleSignAndSendTransaction, sendFirstFailure, resFailure,
        errEntryList, errorEntries, logEntries]
  · intro env
    obtain ⟨br, sr⟩ := env
    cases br <;> cases sr <;>
      simp [handleSignAndSendTransactionV0, sendFirstFailure, resFailure,
        errEntryList, errorEntries, logEntries]
  · intro env
    obtain ⟨b1, cr, b2, er, b3, vr⟩ := env
    cases b1 with
    | error e =>
      simp [handleSignAndSendTransactionV0WithLookupTable, lutFirstFailure,
        errEntryList, errorEntries, logEntries]
    | ok bh1 =>
      cases cr with
      | error e =>
        simp [handleSignAndSendTransactionV0WithLookupTable, lutFirstFailure,
          errEntryList, errorEntries, logEntries]
      | ok pr =>
        obtain ⟨cs, tbl⟩ := pr
        cases b2 with
        | error e =>
          simp [handleSignAndSendTransactionV0WithLookupTable, lutFirstFailure,
            errEntryList, errorEntries, logEntries]
        | ok bh2 =>
          cases er with
          | error e =>
            simp [handleSignAndSendTransactionV0WithLookupTable, lutFirstFailure,
              errEntryList, errorEntries, logEntries]
          | ok es =>
            cases b3 with
            | error e =>
              simp [handleSignAndSendTransactionV0WithLookupTable, lutFirstFailure,
                errEntryList, errorEntries, logEntries]
            | ok bh3 =>
              cases vr <;>
                simp [handleSignAndSendTransactionV0WithLookupTable,
                  lutFirstFailure, resFailure, errEntryList, errorEntries,
                  logEntries]
  · intro env
    obtain ⟨br, sr⟩ := env
    cases br <;> cases sr <;>
      simp [handleSignTransaction, signOnlyFirstFailure, resFailure,
        errEntryList, errorEntries, logEntries]
  · intro env
    obtain ⟨b1, b2, sar⟩ := env
    cases b1 <;> cases b2 <;> cases sar <;>
      simp [handleSignAllTransactions, signAllFirstFailure, resFailure,
        errEntryList, errorEntries, logEntries]
  · intro env
    obtain ⟨sr⟩ := env
    cases sr <;>
      simp [handleSignMessage, resFailure, errEntryList, errorEntries,
        logEntries]
  · intro env i hch
    cases hsr : env.signInRes <;>
      simp [handleSignIn, hch, hsr, resFailure, errEntryList, errorEntries,
        logEntries]
  · intro env e hch
    simp [handleSignIn, hch]
  · intro env i hch
    cases hsr : env.signInRes <;>
      simp [handleSignInError, hch, hsr, resFailure, errEntryList,
        errorEntries, logEntries]
  · intro env e hch
    simp [handleSignInError, hch]
  · intro env
    obtain ⟨r⟩ := env
    cases r <;>
      simp [handleConnect, resFailure, errEntryList, errorEntries, logEntries]
  · intro env
    obtain ⟨r⟩ := env
    cases r <;>
      simp [handleDisconnect, resFailure, errEntryList, errorEntries,
        logEntries]

/-- C2 (amended) witness: a caught signIn rejection produces the single
error entry in both sign-in use cases, and a challenge-creation failure
escapes both with no entry. -/
theorem try_block_errors_logged_witness :
    ((handleSignIn (some "pk") true signInEnvDeclined).2 = Except.ok () ∧
      errorEntries (handleSignIn (some "pk") true signInEnvDeclined).1 =
        errEntryList "signIn" (resFailure signInEnvDeclined.signInRes)) ∧
    handleSignIn (some "pk") true signInEnvChalFail =
      ([Event.createChallenge false], Except.error "boom") ∧
    ((handleSignInError (some "pk") true signInEnvDeclined).2 = Except.ok () ∧
      errorEntries (handleSignInError (some "pk") true signInEnvDeclined).1 =
        errEntryList "signIn" (resFailure signInEnvDeclined.signInRes)) ∧
    handleSignInError (some "pk") true signInEnvChalFail =
      ([Event.createChallenge true], Except.error "boom") :=
  ⟨(try_block_errors_logged "pk").2.2.2.2.2.2.1 signInEnvDeclined "challenge" rfl,
   (try_block_errors_logged "pk").2.2.2.2.2.2.2.1 signInEnvChalFail "boom" rfl,
   (try_block_errors_logged "pk").2.2.2.2.2.2.2.2.1 signInEnvDeclined "challenge" rfl,
   (try_block_errors_logged "pk").2.2.2.2.2.2.2.2.2.1 signInEnvChalFail "boom" rfl⟩

/-- C4: counterexample — the claim that a use-case method emits a
success- or error-status entry after the dispatch completes is false on
the submit-producing plain transfer path: on a fully successful run the
only entry after the dispatch has info status (the success outcome is
left to the poller's own events), so no success/error entry follows. -/
theorem submit_path_lacks_final_status : ¬ EmitsFinalStatusAfterDispatch := by
  intro h
  have h2 := (h "pk" sendEnvAllOk "tx1" "sig1" rfl rfl).2.1
  exact absurd h2 (by decide)

/-- C4 (amended): every submission receipt any facade method obtains is
handed to the Confirmation Poller; the plain transfer methods (legacy and
V0) emit an info-status entry before their dispatch and a further
info-status entry after it, never a success/error entry on their success
path (final statuses come from the poller's events or the catch branch);
the sign-only and sign-all methods emit an info-status entry before their
dispatch and a success-status entry after it; the lookup-table method,
however, dispatches its create transaction before appending any log
entry at all (its first info entry follows that dispatch), emits info
entries before its extend and versioned-transaction dispatches, emits no
success/error entry on its success path, and hands all three receipts to
the poller; every method's catch branch appends an error entry. -/
theorem dispatch_logging_shape (pk : String) :
    (∀ (env : SendEnv) tx sig,
      env.buildRes = Except.ok tx → env.sendRes = Except.ok sig →
      (beforeFirst isSendDispatch
        (handleSignAndSendTransaction (some pk) true env).1).any isInfoLog = true ∧
      (afterFirst isSendDispatch
        (handleSignAndSendTransaction (some pk) true env).1).any isInfoLog = true ∧
      (afterFirst isSendDispatch
        (handleSignAndSendTransaction (some pk) true env).1).any isFinalStatusLog = false ∧
      Event.startPoll sig ∈ (handleSignAndSendTransaction (some pk) true env).1) ∧
    (∀ (env : SendEnv) tx sig,
      env.buildRes = Except.ok tx → env.sendRes = Except.ok sig →
      (beforeFirst isSendDispatch
        (handleSignAndSendTransactionV0 (some pk) true env).1).any isInfoLog = true ∧
      (afterFirst isSendDispatch
        (handleSignAndSendTransactionV0 (some pk) true env).1).any isInfoLog = true ∧
      (afterFirst isSendDispatch
        (handleSignAndSendTransactionV0 (some pk) true env).1).any isFinalStatusLog = false ∧
      Event.startPoll sig ∈ (handleSignAndSendTransactionV0 (some pk) true env).1) ∧
    (∀ (env : LutEnv) bh1 cs tbl bh2 es bh3 vs,
      env.blockhash1 = Except.ok bh1 → env.createRes = Except.ok (cs, tbl) →
      env.blockhash2 = Except.ok bh2 → env.extendRes = Except.ok es →
      env.blockhash3 = Except.ok bh3 → env.sendV0Res = Except.ok vs →
      logEntries (beforeFirst isCreateLutDispatch
        (handleSignAndSendTransactionV0WithLookupTable (some pk) true env).1) = [] ∧
      (beforeFirst isExtendDispatch
        (handleSignAndSendTransactionV0WithLookupTable (some pk) true env).1).any isInfoLog = true ∧
      (beforeFirst isV0LutDispatch
        (handleSignAndSendTransactionV0WithLookupTable (some pk) true env).1).any isInfoLog = true ∧
      ((handleSignAndSendTransactionV0WithLookupTable (some pk) true env).1).any isFinalStatusLog = false ∧
      Event.startPoll cs ∈ (handleSignAndSendTransactionV0WithLookupTable (some pk) true env).1 ∧
      Event.startPoll es ∈ (handleSignAndSendTransactionV0WithLookupTable (some pk) true env).1 ∧
      Event.startPoll vs ∈ (handleSignAndSendTransactionV0WithLookupTable (some pk) true env).1) ∧
    (∀ (env : SignOnlyEnv) tx st,
      env.buildRes = Except.ok tx → env.signRes = Except.ok st →
      (beforeFirst isSignOnlyDispatch
        (handleSignTransaction (some pk) true env).1).any isInfoLog = true ∧
      (afterFirst isSignOnlyDispatch
        (handleSignTransaction (some pk) true env).1).any isFinalStatusLog = true) ∧
    (∀ (env : SignAllEnv) t1 t2 out,
      env.buildRes1 = Except.ok t1 → env.buildRes2 = Except.ok t2 →
      env.signAllRes = Except.ok out →
      (beforeFirst isSignAllDispatch
        (handleSignAllTransactions (some pk) true env).1).any isInfoLog = true ∧
      (afterFirst isSignAllDispatch
        (handleSignAllTransactions (some pk) true env).1).any isFinalStatusLog = true) ∧
    (∀ (env : SendEnv) e, env.buildRes = Except.error e →
      errorEntries (handleSignAndSendTransaction (some pk) true env).1 =
        [⟨LogStatus.error, "signAndSendTransaction", e⟩]) := by
  refine ⟨?_, ?_, ?_, ?_, ?_, ?_⟩
  · intro env tx sig hb hs
    refine ⟨?_, ?_, ?_, ?_⟩ <;>
      simp [handleSignAndSendTransaction, hb, hs, beforeFirst, afterFirst,
        isSendDispatch, isInfoLog, isFinalStatusLog]
  · intro env tx sig hb hs
    refine ⟨?_, ?_, ?_, ?_⟩ <;>
      simp [handleSignAndSendTransactionV0, hb, hs, beforeFirst, afterFirst,
        isSendDispatch, isInfoLog, isFinalStatusLog]
  · intro env bh1 cs tbl bh2 es bh3 vs h1 h2 h3 h4 h5 h6
    cases env
    subst h1 h2 h3 h4 h5 h6
    refine ⟨?_, ?_, ?_, ?_, ?_, ?_, ?_⟩ <;>
      simp [handleSignAndSendTransactionV0WithLookupTable, beforeFirst,
        isCreateLutDispatch, isExtendDispatch, isV0LutDispatch, isInfoLog,
        isFinalStatusLog, logEntries]
  · intro env tx st hb hs
    refine ⟨?_, ?_⟩ <;>
      simp [handleSignTransaction, hb, hs, beforeFirst, afterFirst,
        isSignOnlyDispatch, isInfoLog, isFinalStatusLog]
  · intro env t1 t2 out h1 h2 h3
    refine ⟨?_, ?_⟩ <;>
      simp [handleSignAllTransactions, h1, h2, h3, beforeFirst, afterFirst,
        isSignAllDispatch, isInfoLog, isFinalStatusLog]
  · intro env e hb
    simp [handleSignAndSendTransaction, hb, errorEntries, logEntries]

/-- C4 (amended) witness: the logging shape at concrete successful
environments for all five facade methods and at a failing build. -/
theorem dispatch_logging_shape_witness :
    ((beforeFirst isSendDispatch
        (handleSignAndSendTransaction (some "pk") true sendEnvAllOk).1).any isInfoLog = true ∧
      (afterFirst isSendDispatch
        (handleSignAndSendTransaction (some "pk") true sendEnvAllOk).1).any isInfoLog = true ∧
      (afterFirst isSendDispatch
        (handleSignAndSendTransaction (some "pk") true sendEnvAllOk).1).any isFinalStatusLog = false ∧
      Event.startPoll "sig1" ∈ (handleSignAndSendTransaction (some "pk") true sendEnvAllOk).1) ∧
    ((beforeFirst isSendDispatch
        (handleSignAndSendTransactionV0 (some "pk") true sendEnvAllOk).1).any isInfoLog = true ∧
      (afterFirst isSendDispatch
        (handleSignAndSendTransactionV0 (some "pk") true sendEnvAllOk).1).any isInfoLog = true ∧
      (afterFirst isSendDispatch
        (handleSignAndSendTransactionV0 (some "pk") true sendEnvAllOk).1).any isFinalStatusLog = false ∧
      Event.startPoll "sig1" ∈ (handleSignAndSendTransactionV0 (some "pk") true sendEnvAllOk).1) ∧
    (logEntries (beforeFirst isCreateLutDispatch
        (handleSignAndSendTransactionV0WithLookupTable (some "pk") true lutEnvAllOk).1) = [] ∧
      (beforeFirst isExtendDispatch
        (handleSignAndSendTransactionV0WithLookupTable (some "pk") true lutEnvAllOk).1).any isInfoLog = true ∧
      (beforeFirst isV0LutDispatch
        (handleSignAndSendTransactionV0WithLookupTable (some "pk") true lutEnvAllOk).1).any isInfoLog = true ∧
      ((handleSignAndSendTransactionV0WithLookupTable (some "pk") true lutEnvAllOk).1).any isFinalStatusLog = false ∧
      Event.startPoll "createSig" ∈ (handleSignAndSendTransactionV0WithLookupTable (some "pk") true lutEnvAllOk).1 ∧
      Event.startPoll "extendSig" ∈ (handleSignAndSendTransactionV0WithLookupTable (some "pk") true lutEnvAllOk).1 ∧
      Event.startPoll "v0Sig" ∈ (handleSignAndSendTransactionV0WithLookupTable (some "pk") true lutEnvAllOk).1) ∧
    ((beforeFirst isSignOnlyDispatch
        (handleSignTransaction (some "pk") true ⟨Except.ok "tx1", Except.ok "st1"⟩).1).any isInfoLog = true ∧
      (afterFirst isSignOnlyDispatch
        (handleSignTransaction (some "pk") true ⟨Except.ok "tx1", Except.ok "st1"⟩).1).any isFinalStatusLog = true) ∧
    ((beforeFirst isSignAllDispatch
        (handleSignAllTransactions (some "pk") true ⟨Except.ok "t1", Except.ok "t2", Except.ok ["s1", "s2"]⟩).1).any isInfoLog = true ∧
      (afterFirst isSignAllDispatch
        (handleSignAllTransactions (some "pk") true ⟨Except.ok "t1", Except.ok "t2", Except.ok ["s1", "s2"]⟩).1).any isFinalStatusLog = true) ∧
    errorEntries (handleSignAndSendTransaction (some "pk") true ⟨Except.error "nohash", Except.ok "s"⟩).1 =
      [⟨LogStatus.error, "signAndSendTransaction", "nohash"⟩] :=
  ⟨(dispatch_logging_shape "pk").1 sendEnvAllOk "tx1" "sig1" rfl rfl,
   (dispatch_logging_shape "pk").2.1 sendEnvAllOk "tx1" "sig1" rfl rfl,
   (dispatch_logging_shape "pk").2.2.1 lutEnvAllOk "bh1" "createSig" "tableAddr"
     "bh2" "extendSig" "bh3" "v0Sig" rfl rfl rfl rfl rfl rfl,
   (dispatch_logging_shape "pk").2.2.2.1 ⟨Except.ok "tx1", Except.ok "st1"⟩ "tx1" "st1" rfl rfl,
   (dispatch_logging_shape "pk").2.2.2.2.1 ⟨Except.ok "t1", Except.ok "t2", Except.ok ["s1", "s2"]⟩
     "t1" "t2" ["s1", "s2"] rfl rfl rfl,
   (dispatch_logging_shape "pk").2.2.2.2.2 ⟨Except.error "nohash", Except.ok "s"⟩ "nohash" rfl⟩

/-- C5 (code evaluation at the failing input): on a run of the
sign-in-error use case where the adapter signIn succeeds, the single
entry the method appends carries method signMessage — the tag of a
different use case — and on a rejected run the entry carries method
signIn; neither branch tags its entries with the sign-in-error use case
itself. -/
theorem signInError_entry_method_mismatch :
    logEntries (handleSignInError (some "pk") true signInEnvAllOk).1 =
      [⟨LogStatus.success, "signMessage",
        "Message signed: msg1 by acct1 with signature sig1"⟩] ∧
    logEntries (handleSignInError (some "pk") true
        ⟨Except.ok "challenge", Except.error "declined"⟩).1 =
      [⟨LogStatus.error, "signIn", "declined"⟩] := by
  exact ⟨rfl, rfl⟩

/-- C9: counterexample — the claim that a polling loop is cancellable per
invocation through a caller-supplied signal is false: the call sites pass
only (signature, connection, createLog), so a caller abandoning interest
at time 0 still sees the loop perform its full 30-attempt budget when no
terminal status arrives. -/
theorem poll_not_cancellable : ¬ PollIndependentlyCancellable := by
  intro h
  exact absurd (h (fun _ => ConfStatus.pending) 0) (by decide)

/-- Helper: the polling loop performs at most fuel checks beyond its
starting attempt index. -/
theorem pollLoop_attempts_le (statusAt : Nat → ConfStatus) :
    ∀ fuel i, (pollLoop statusAt fuel i).2 ≤ i + fuel := by
  intro fuel
  induction fuel with
  | zero => intro i; simp [pollLoop]
  | succ n ih =>
    intro i
    simp only [pollLoop]
    cases h : isTerminal (statusAt i) with
    | true => simp [h]
    | false =>
      simp only [h]
      have := ih (i + 1)
      omega

/-- C9 (amended): polling started by a use-case invocation is
fire-and-forget and not cancellable — the number of status checks is the
same whatever abandonment time the caller might have (no cancellation
signal reaches the loop) — and each loop is bounded by the internal
30-attempt budget, which is the only thing that stops it short of a
terminal status. -/
theorem poll_budget_bound (statusAt : Nat → ConfStatus) (abandonAt : Option Nat) :
    pollAttemptsWithAbandon statusAt abandonAt ≤ pollBudget ∧
    pollAttemptsWithAbandon statusAt abandonAt =
      pollAttemptsWithAbandon statusAt none := by
  refine ⟨?_, rfl⟩
  have h := pollLoop_attempts_le statusAt pollBudget 0
  simpa [pollAttemptsWithAbandon] using h
